import Mathlib

/-!
Verification of the freud analysis toolkit specification against a shallow
embedding of its source (`src/freud/common.pyx`, `src/freud/kspace.pyx`,
`src/cpp/locality/LinkCell.h`, `src/cpp/density/GaussianDensity.cc`, and the
StaticStructureFactorDebye translation unit).

Conventions of the embedding:
- machine floating-point values that only flow through comparisons and exact
  arithmetic are modelled as exact rationals (ℚ); values that feed π, exp,
  sin or sqrt are modelled as real (ℝ) or complex (ℂ) numbers;
- fallible operations (C++ `throw`, Python `raise`) are modelled with
  `Except String`;
- stateful objects are modelled as structures with explicit state passing.
-/

namespace Freud

/-! ### Compute lifecycle guard (`src/freud/common.pyx`, class `Compute`) -/

namespace Common

/-- State of a compute object built on the `Compute` base class: the boolean
has-computed flag (`_called_compute`, set to `False` in `__cinit__`) together
with the object's own data, abstracted as a value of an arbitrary type. -/
structure ComputeState (α : Type) where
  m_called_compute : Bool
  data : α

/-- Construction of a compute object: `__cinit__` initializes
`_called_compute = False`. -/
def computeInit {α : Type} (a : α) : ComputeState α :=
  { m_called_compute := false, data := a }

/-- The `Compute._compute` decorator: run the wrapped function, then set the
flag to `True`.  The wrapped function may itself fail (raise), in which case
the flag is not set because the exception propagates before the assignment. -/
def computeDecorated {α ε : Type} (func : α → Except ε α) (s : ComputeState α) :
    Except ε (ComputeState α) :=
  match func s.data with
  | Except.ok d => Except.ok { m_called_compute := true, data := d }
  | Except.error e => Except.error e

/-- The `Compute._computed_property` (and `_computed_method`) decorator: check
the flag and raise `AttributeError("Property not computed. Call compute
first.")` when it is false, otherwise return the wrapped accessor's value. -/
def computedProperty {α β : Type} (prop : α → β) (s : ComputeState α) :
    Except String β :=
  if s.m_called_compute then Except.ok (prop s.data)
  else Except.error "Property not computed. Call compute first."

/-- The `Compute._reset` decorator: set the flag to `False`, then run the
wrapped function. -/
def resetDecorated {α : Type} (func : α → α) (s : ComputeState α) :
    ComputeState α :=
  { m_called_compute := false, data := func s.data }

end Common

/-! ### StaticStructureFactorDebye (`src/unnamed/part_000`) -/

namespace Diffraction

/-- Modelled from the spec: the simulation box consumed by
`StaticStructureFactorDebye::accumulate` (`Box.h` is not under `src/`).  It
carries the three side lengths (exact rationals standing for the stored float
values) and the 2D flag; `getL` and `is2D` are direct field reads. -/
structure DBox where
  Lx : ℚ
  Ly : ℚ
  Lz : ℚ
  is2D : Bool

/-- The state of a `StaticStructureFactorDebye` object.  The histogram bin
layout is determined by `bins`, `k_min`, `k_max` (a `util::RegularAxis` over
[k_min, k_max)); the thread-local accumulators are modelled merged, as a
single per-bin real array, which is what they deterministically reduce to. -/
structure DebyeState where
  bins : ℕ
  k_min : ℚ
  k_max : ℚ
  m_min_valid_k : WithTop ℝ
  m_local_histograms : ℕ → ℝ
  m_frame_counter : ℕ
  m_reduce : Bool
  m_structure_factor : ℕ → ℝ

/-- The `StaticStructureFactorDebye(bins, k_max, k_min)` constructor: the four
validation checks in source order, each raising `std::invalid_argument` with
its message; on success the object starts with `m_min_valid_k = infinity`
(modelled as `⊤`), empty accumulators and a zero-prepared result array. -/
def debyeConstruct (bins : ℕ) (k_max k_min : ℚ) : Except String DebyeState :=
  if bins = 0 then
    Except.error "StaticStructureFactorDebye requires a nonzero number of bins."
  else if k_max ≤ 0 then
    Except.error "StaticStructureFactorDebye requires k_max to be positive."
  else if k_min < 0 then
    Except.error "StaticStructureFactorDebye requires k_min to be non-negative."
  else if k_max ≤ k_min then
    Except.error "StaticStructureFactorDebye requires that k_max must be greater than k_min."
  else
    Except.ok
      { bins := bins
        k_min := k_min
        k_max := k_max
        m_min_valid_k := ⊤
        m_local_histograms := fun _ => 0
        m_frame_counter := 0
        m_reduce := false
        m_structure_factor := fun _ => 0 }

/-- Integer base-2 logarithm ⌊log₂ x⌋ of a positive rational, computed from
the bit lengths of numerator and denominator with a correction step. -/
def qlog2 (x : ℚ) : ℤ :=
  let g : ℤ := (Nat.log 2 x.num.toNat : ℤ) - (Nat.log 2 x.den : ℤ)
  if x < (2 : ℚ) ^ (g - 1) then g - 2
  else if x < (2 : ℚ) ^ g then g - 1
  else if x < (2 : ℚ) ^ (g + 1) then g
  else g + 1

/-- Exact model of `std::nextafter(x, 0)` for a positive single-precision
value `x` in the normal range: the largest IEEE-754 binary32 value strictly
below `x`.  Binary32 values near `x` lie on the grid of spacing
`2 ^ (⌊log₂ x⌋ - 23)`; when `x` sits on the grid the predecessor is one step
down (a half step when `x` is a power of two, where the exponent decreases),
otherwise it is the grid point below `x`. -/
def fpred32 (x : ℚ) : ℚ :=
  if x / (2 : ℚ) ^ (qlog2 x - 23) = (⌊x / (2 : ℚ) ^ (qlog2 x - 23)⌋ : ℚ) then
    if x = (2 : ℚ) ^ qlog2 x then x - (2 : ℚ) ^ (qlog2 x - 24)
    else x - (2 : ℚ) ^ (qlog2 x - 23)
  else (⌊x / (2 : ℚ) ^ (qlog2 x - 23)⌋ : ℚ) * (2 : ℚ) ^ (qlog2 x - 23)

/-- The smallest box side length used by `accumulate`: 2D boxes use
`min(L.x, L.y)`, 3D boxes `min(L.x, min(L.y, L.z))`. -/
def minBoxLength (b : DBox) : ℚ :=
  if b.is2D then min b.Lx b.Ly else min b.Lx (min b.Ly b.Lz)

/-- A 3-component point (exact coordinates standing for `vec3<float>`). -/
abbrev QVec3 := ℚ × ℚ × ℚ

/-- Modelled from the spec: per-axis minimum-image wrapping used by
`Box::wrap` (`Box.h` is not under `src/`) — a periodic axis maps the
displacement to the nearest image, a non-periodic axis passes it through. -/
noncomputable def wrapAxis (L : ℝ) (periodic : Bool) (d : ℝ) : ℝ :=
  if periodic then d - L * (round (d / L) : ℤ) else d

/-- Modelled from the spec: a single periodic distance computed by
`Box::computeAllDistances` (`Box.h` is not under `src/`): the Euclidean norm
of the minimum-image displacement.  Debye boxes are fully periodic. -/
noncomputable def DBox.distance (b : DBox) (p q : QVec3) : ℝ :=
  Real.sqrt ((wrapAxis (b.Lx : ℝ) true ((p.1 : ℝ) - (q.1 : ℝ))) ^ 2
    + (wrapAxis (b.Ly : ℝ) true ((p.2.1 : ℝ) - (q.2.1 : ℝ))) ^ 2
    + (wrapAxis (b.Lz : ℝ) true ((p.2.2 : ℝ) - (q.2.2 : ℝ))) ^ 2)

/-- Modelled from the spec: the flattened distance matrix of
`Box::computeAllDistances` between the stored points and the query points. -/
noncomputable def computeAllDistances (b : DBox) (points query_points : List QVec3) :
    List ℝ :=
  points.flatMap (fun p => query_points.map (fun q => b.distance p q))

/-- Modelled from the spec: `util::sinc` (`utils.h` is not under `src/`):
`sin(x)/x` with the removable singularity `sinc(0) = 1`. -/
noncomputable def sinc (x : ℝ) : ℝ :=
  if x = 0 then 1 else Real.sin x / x

/-- Modelled from the spec: the bin centers of the `util::RegularAxis` over
[k_min, k_max) with `bins` equal bins — the midpoint of each bin's edges. -/
def binCenter (st : DebyeState) (i : ℕ) : ℚ :=
  st.k_min + ((i : ℚ) + 1 / 2) * (st.k_max - st.k_min) / st.bins

/-- `StaticStructureFactorDebye::accumulate`: derive `r_max` as
`nextafter(0.5 * min_box_length, 0)`, fold `2π / r_max` into the running
minimum valid k, compute all periodic distances, and for every k-bin add
`Σ sinc(k·d) / n_total` into that bin's (merged thread-local) accumulator;
finally bump the frame counter and mark the pending reduction. -/
noncomputable def DebyeState.accumulate (st : DebyeState) (box : DBox)
    (points query_points : List QVec3) (n_total : ℕ) : DebyeState :=
  let r_max : ℚ := fpred32 (1 / 2 * minBoxLength box)
  let distances : List ℝ := computeAllDistances box points query_points
  { st with
    m_min_valid_k :=
      min st.m_min_valid_k ((2 * Real.pi / (r_max : ℝ) : ℝ) : WithTop ℝ)
    m_local_histograms := fun k_index =>
      st.m_local_histograms k_index +
        (if k_index < st.bins then
          (distances.map (fun d => sinc ((binCenter st k_index : ℝ) * d))).sum
            / (n_total : ℝ)
        else 0)
    m_frame_counter := st.m_frame_counter + 1
    m_reduce := true }

/-- `StaticStructureFactorDebye::reduce`: copy the merged accumulators into
the structure factor array and divide by the frame count when more than one
frame has been accumulated. -/
noncomputable def DebyeState.reduce (st : DebyeState) : DebyeState :=
  { st with
    m_structure_factor := fun i =>
      if i < st.bins then
        if 1 < st.m_frame_counter then
          st.m_local_histograms i / (st.m_frame_counter : ℝ)
        else st.m_local_histograms i
      else 0 }

end Diffraction

/-! ### LinkCell spatial index (`src/cpp/locality/LinkCell.h`) -/

namespace Locality

/-- Modelled from the spec: the legacy `trajectory::Box` used by `LinkCell`
(`trajectory.h` is not under `src/`) — an orthorhombic box given by its three
side lengths.  Only `makeunit` is needed here. -/
structure TBox where
  Lx : ℚ
  Ly : ℚ
  Lz : ℚ

/-- Modelled from the spec: `Box::makeunit`, the affine map from absolute to
box-fraction coordinates (in [0,1) for in-box points):
`alpha = (p + L/2) / L` per axis, matching the documented cell formula
`i = floorf((x + Lx/2) / w) % Nw`. -/
def TBox.makeunit (b : TBox) (p : Freud.Diffraction.QVec3) : Freud.Diffraction.QVec3 :=
  ((p.1 + b.Lx / 2) / b.Lx, (p.2.1 + b.Ly / 2) / b.Ly, (p.2.2 + b.Lz / 2) / b.Lz)

/-- The `Index3D` cell grid dimensions (W, H, D) of a `LinkCell`. -/
structure CellGrid where
  W : ℕ
  H : ℕ
  D : ℕ

/-- One axis of `LinkCell::getCellCoord`: `c = floorf(alpha * N); c %= N`.
The float-to-unsigned conversion is modelled by `Int.toNat` of the floor;
in C++ a negative value here would be undefined behavior, which cannot arise
from `makeunit`'s contract (box-fraction coordinates are nonnegative). -/
def cellCoordAxis (alpha : ℚ) (N : ℕ) : ℕ :=
  (⌊alpha * (N : ℚ)⌋).toNat % N

/-- `LinkCell::getCellCoord`: apply `makeunit`, then the floor-and-mod
computation per axis against the per-axis cell counts. -/
def getCellCoord (b : TBox) (g : CellGrid) (p : Freud.Diffraction.QVec3) :
    ℕ × ℕ × ℕ :=
  let alpha := b.makeunit p
  (cellCoordAxis alpha.1 g.W, cellCoordAxis alpha.2.1 g.H, cellCoordAxis alpha.2.2 g.D)

/-- The reserved terminator marking the end of a cell's linked list. -/
def LINK_CELL_TERMINATOR : ℕ := 0xffffffff

/-- `IteratorLinkCell` cursor state.  The shared cell-list array is modelled
as an unconstrained total map: the C++ `next()` performs unchecked reads, and
a read outside the `Np + Nc` valid entries is undefined behavior left to the
caller to avoid. -/
structure IteratorLinkCell where
  m_cell_list : ℕ → ℕ
  m_Np : ℕ
  m_Nc : ℕ
  m_cur_idx : ℕ

/-- The `IteratorLinkCell` constructor: the cursor starts at the cell's head
slot `Np + cell`. -/
def IteratorLinkCell.init (cell_list : ℕ → ℕ) (Np Nc cell : ℕ) :
    IteratorLinkCell :=
  { m_cell_list := cell_list, m_Np := Np, m_Nc := Nc, m_cur_idx := Np + cell }

/-- `IteratorLinkCell::atEnd`: the current index equals the terminator. -/
def IteratorLinkCell.atEnd (it : IteratorLinkCell) : Bool :=
  it.m_cur_idx == LINK_CELL_TERMINATOR

/-- `IteratorLinkCell::next`: dereference the cell list at the current index
and move there, returning the new index.  No bounds or end check of any
kind. -/
def IteratorLinkCell.next (it : IteratorLinkCell) : IteratorLinkCell × ℕ :=
  let c := it.m_cell_list it.m_cur_idx
  ({ it with m_cur_idx := c }, c)

/-- `IteratorLinkCell::nextPy`: perform the same step as `next`, then raise
`StopIteration` (modelled as `Except.error ()`) exactly when the step landed
on the terminator. -/
def IteratorLinkCell.nextPy (it : IteratorLinkCell) :
    Except Unit (IteratorLinkCell × ℕ) :=
  let stepped := { it with m_cur_idx := it.m_cell_list it.m_cur_idx }
  if stepped.atEnd then Except.error ()
  else Except.ok (stepped, stepped.m_cur_idx)

end Locality

/-! ### Reciprocal-space toolkit (`src/freud/kspace.pyx`) -/

namespace Kspace

/-- A Python value as it appears in the `SingleCell3D` per-type lists: a
string (type names), an integer (the index fed to `list.remove`), `None`
(unset form factors and parameters), a numpy position/orientation array
(held abstract), or a form-factor object (held abstract). -/
inductive PyVal where
  | pyInt (n : ℤ)
  | pyStr (s : String)
  | pyNone
  | pyArr (tag : ℕ)
  | pyFF (tag : ℕ)
deriving DecidableEq

/-- Python `==` between the values above, as used by `list.remove`: values of
different kinds compare unequal (an integer never equals a string, `None`, an
empty numpy array, or a form-factor object without `__eq__`); values of the
same kind compare by content/identity.  (Comparing an integer against the
empty `(0,3)` arrays stored per type yields an empty elementwise result whose
truth value is `False` in the numpy of this code's era; the failing path
below never reaches an array comparison anyway.) -/
def pyEq : PyVal → PyVal → Bool
  | PyVal.pyInt m, PyVal.pyInt n => m == n
  | PyVal.pyStr s, PyVal.pyStr t => s == t
  | PyVal.pyNone, PyVal.pyNone => true
  | PyVal.pyArr a, PyVal.pyArr b => a == b
  | PyVal.pyFF a, PyVal.pyFF b => a == b
  | _, _ => false

/-- Python `list.remove(x)`: delete the first element comparing equal to `x`,
or raise `ValueError` when none does. -/
def pyListRemove (l : List PyVal) (x : PyVal) : Except String (List PyVal) :=
  match l with
  | [] => Except.error "list.remove(x): x not in list"
  | a :: rest =>
    if pyEq a x then Except.ok rest
    else (pyListRemove rest x).map (fun r => a :: r)

/-- Python `list.index(x)`: position of the first element comparing equal to
`x`, or `ValueError` when none does. -/
def pyListIndex (l : List PyVal) (x : PyVal) : Except String ℕ :=
  match l with
  | [] => Except.error "x not in list"
  | a :: rest =>
    if pyEq a x then Except.ok 0
    else (pyListIndex rest x).map (fun n => n + 1)

/-- The particle-type registry slice of `SingleCell3D` state: the parallel
per-type lists, the parameter dictionary (name to per-type value list), the
`ptype_param_methods` list (created empty in `__init__` and never appended to
anywhere in the source), the active index set, and the FT validity flag. -/
structure SingleCell3DTypes where
  ptype_name : List PyVal
  ptype_position : List PyVal
  ptype_orientation : List PyVal
  ptype_ff : List PyVal
  ptype_param : List (String × List PyVal)
  ptype_param_methods : List PyVal
  active_types : List ℕ
  FT_valid : Bool

/-- The registry as `SingleCell3D.__init__` leaves it: every list empty. -/
def initTypes : SingleCell3DTypes :=
  { ptype_name := [], ptype_position := [], ptype_orientation := [],
    ptype_ff := [], ptype_param := [], ptype_param_methods := [],
    active_types := [], FT_valid := false }

/-- `SingleCell3D.add_ptype`: reject a duplicate name, else append the name,
an empty `(0,3)` position array, an empty `(0,4)` orientation array, a `None`
form factor, and a `None` entry on every existing parameter list.  (The
`tag` of the fresh arrays is the current type count, keeping them distinct.)
Note that `ptype_param_methods` is not appended to. -/
def add_ptype (st : SingleCell3DTypes) (name : String) :
    Except String SingleCell3DTypes :=
  if PyVal.pyStr name ∈ st.ptype_name then
    Except.error (name ++ " already exists")
  else
    Except.ok
      { st with
        ptype_name := st.ptype_name ++ [PyVal.pyStr name]
        ptype_position := st.ptype_position ++ [PyVal.pyArr st.ptype_name.length]
        ptype_orientation := st.ptype_orientation ++ [PyVal.pyArr st.ptype_name.length]
        ptype_ff := st.ptype_ff ++ [PyVal.pyNone]
        ptype_param := st.ptype_param.map (fun pl => (pl.1, pl.2 ++ [PyVal.pyNone])) }

/-- `SingleCell3D.remove_ptype`, statement for statement: look up the integer
index `i` of the name, discard `i` from the active set if present, then call
`list.remove(i)` — removal of the first element equal to the *value* `i` — on
every parameter list, on `ptype_param_methods`, on `ptype_ff`,
`ptype_orientation`, `ptype_position` and `ptype_name` in that order, and
finally clear the FT flag if `i` is still in the active set. -/
def remove_ptype (st : SingleCell3DTypes) (name : String) :
    Except String SingleCell3DTypes := do
  let i ← pyListIndex st.ptype_name (PyVal.pyStr name)
  let active_types :=
    if i ∈ st.active_types then st.active_types.erase i else st.active_types
  let ptype_param ← st.ptype_param.mapM
    (fun pl => (pyListRemove pl.2 (PyVal.pyInt i)).map (fun l => (pl.1, l)))
  let ptype_param_methods ← pyListRemove st.ptype_param_methods (PyVal.pyInt i)
  let ptype_ff ← pyListRemove st.ptype_ff (PyVal.pyInt i)
  let ptype_orientation ← pyListRemove st.ptype_orientation (PyVal.pyInt i)
  let ptype_position ← pyListRemove st.ptype_position (PyVal.pyInt i)
  let ptype_name ← pyListRemove st.ptype_name (PyVal.pyInt i)
  let FT_valid := if i ∈ active_types then false else st.FT_valid
  pure
    { ptype_name := ptype_name, ptype_position := ptype_position,
      ptype_orientation := ptype_orientation, ptype_ff := ptype_ff,
      ptype_param := ptype_param, ptype_param_methods := ptype_param_methods,
      active_types := active_types, FT_valid := FT_valid }

/-- A real 3-vector, as `reciprocalLattice3D` consumes and produces. -/
abbrev RVec3 := ℝ × ℝ × ℝ

/-- `np.dot` on 3-vectors. -/
def dot3 (a b : RVec3) : ℝ :=
  a.1 * b.1 + a.2.1 * b.2.1 + a.2.2 * b.2.2

/-- `np.cross` on 3-vectors. -/
def cross3 (a b : RVec3) : RVec3 :=
  (a.2.1 * b.2.2 - a.2.2 * b.2.1,
   a.2.2 * b.1 - a.1 * b.2.2,
   a.1 * b.2.1 - a.2.1 * b.1)

/-- Scalar times 3-vector. -/
def smul3 (c : ℝ) (v : RVec3) : RVec3 :=
  (c * v.1, c * v.2.1, c * v.2.2)

/-- `reciprocalLattice3D(a1, a2, a3)`:
`g1 = (2π / a1·(a2×a3))·(a2×a3)`, `g2 = (2π / a2·(a3×a1))·(a3×a1)`,
`g3 = (2π / a3·(a1×a2))·(a1×a2)`. -/
noncomputable def reciprocalLattice3D (a1 a2 a3 : RVec3) : RVec3 × RVec3 × RVec3 :=
  let a2xa3 := cross3 a2 a3
  let g1 := smul3 (2 * Real.pi / dot3 a1 a2xa3) a2xa3
  let a3xa1 := cross3 a3 a1
  let g2 := smul3 (2 * Real.pi / dot3 a2 a3xa1) a3xa1
  let a1xa2 := cross3 a1 a2
  let g3 := smul3 (2 * Real.pi / dot3 a3 a1xa2) a1xa2
  (g1, g2, g3)

/-- Modelled from the spec: the `freud.box.Box` consumed by
`SFactor3DPoints` (`freud/box.pyx` is not under `src/`): side lengths and the
dimensionality flag, with `getLx`/`getLy`/`getLz`/`is2D` as field reads. -/
structure KBox where
  Lx : ℝ
  Ly : ℝ
  Lz : ℝ
  is2D : Bool

/-- `np.linspace(start, stop, num)` with endpoint: sample `i` is
`start + i·(stop−start)/(num−1)`, degenerating to `start` for `num ≤ 1`. -/
noncomputable def linspace (start stop : ℝ) (num : ℕ) (i : ℕ) : ℝ :=
  if num ≤ 1 then start else start + (i : ℝ) * (stop - start) / ((num : ℝ) - 1)

/-- The state of an `SFactor3DPoints` object: the grid side `2g+1`, the three
1-D q axes, and the complex grid, indexed `[c][b][a]` so that the entry at
`(c, b, a)` sits at the q-vector `(qx a, qy b, qz c)` (the `meshgrid2`
layout documented in the class). -/
structure SFactor3DPoints where
  grid : ℕ
  qx : ℕ → ℝ
  qy : ℕ → ℝ
  qz : ℕ → ℝ
  s_complex : ℕ × ℕ × ℕ → ℂ

/-- The `SFactor3DPoints(box, g)` constructor: reject 2D boxes, else build
the three axes `linspace(-g·2π/L, g·2π/L, 2g+1)` and a zero complex grid. -/
noncomputable def SFactor3DPoints.construct (box : KBox) (g : ℕ) :
    Except String SFactor3DPoints :=
  if box.is2D then Except.error "SFactor3DPoints does not support 2D boxes"
  else
    Except.ok
      { grid := 2 * g + 1
        qx := linspace (-(g : ℝ) * 2 * Real.pi / box.Lx)
          ((g : ℝ) * 2 * Real.pi / box.Lx) (2 * g + 1)
        qy := linspace (-(g : ℝ) * 2 * Real.pi / box.Ly)
          ((g : ℝ) * 2 * Real.pi / box.Ly) (2 * g + 1)
        qz := linspace (-(g : ℝ) * 2 * Real.pi / box.Lz)
          ((g : ℝ) * 2 * Real.pi / box.Lz) (2 * g + 1)
        s_complex := fun _ => 0 }

/-- The grid of phase sums built by `SFactor3DPoints.compute` before
normalization: after clearing the grid, every point adds
`exp(i·(qx[a]·p.x + qy[b]·p.y + qz[c]·p.z))` elementwise. -/
noncomputable def SFactor3DPoints.rawGrid (sf : SFactor3DPoints)
    (points : List RVec3) (t : ℕ × ℕ × ℕ) : ℂ :=
  (points.map (fun p =>
    Complex.exp (Complex.I *
      ((sf.qx t.2.2 * p.1 + sf.qy t.2.1 * p.2.1 + sf.qz t.1 * p.2.2 : ℝ) : ℂ)))).sum

/-- `SFactor3DPoints.compute(points)`: zero the grid, accumulate the phase
sums, then divide the whole grid by the magnitude of its center element
`s_complex[mid, mid, mid]` with `mid = grid // 2` (the C₀ normalization).
The division is unguarded in the source; in this model division by a zero
magnitude is Lean's total division (numpy would produce NaN). -/
noncomputable def SFactor3DPoints.compute (sf : SFactor3DPoints)
    (points : List RVec3) : SFactor3DPoints :=
  let mid := sf.grid / 2
  let cinv : ℝ := Complex.abs (sf.rawGrid points (mid, mid, mid))
  { sf with s_complex := fun t => sf.rawGrid points t / (cinv : ℂ) }

/-- State of a `GaussianSpot` (and its `DeltaSpot` base): grid shape, extent
`(xmin, xmax, ymin, ymax)`, per-axis pixel spacings, the Gaussian width and
its cached `ss2 = 2σ²`, the current spot center, and the sub-grid produced by
`set_xy`: the surviving pixel index pairs and their real coordinates. -/
structure GaussianSpotState where
  shape : ℕ × ℕ
  xmin : ℚ
  xmax : ℚ
  ymin : ℚ
  ymax : ℚ
  dx : ℚ
  dy : ℚ
  sigma : ℚ
  ss2 : ℚ
  x : ℚ
  y : ℚ
  gridPoints : List (ℤ × ℤ)
  xvals : List ℚ
  yvals : List ℚ

/-- `np.round` half-to-even (banker's rounding), as numpy rounds the spot
center to the nearest grid index. -/
def pyRound (q : ℚ) : ℤ :=
  let f := ⌊q⌋
  let r := q - (f : ℚ)
  if r < 1 / 2 then f
  else if 1 / 2 < r then f + 1
  else if f % 2 = 0 then f else f + 1

/-- The row-major list of sub-grid index pairs that `np.indices((2nx+1,
2ny+1))` shifted by `(i - nx, j - ny)` produces: all `(gx, gy)` with `gx`
running over `[i-nx, i+nx]` (outer) and `gy` over `[j-ny, j+ny]` (inner). -/
def subgridPairs (i j nx ny : ℤ) : List (ℤ × ℤ) :=
  (List.range (2 * nx + 1).toNat).flatMap (fun a =>
    (List.range (2 * ny + 1).toNat).map (fun b =>
      (i - nx + (a : ℤ), j - ny + (b : ℤ))))

/-- `GaussianSpot.set_xy(x, y)`: store the center, build the square sub-grid
of half-widths `nx = int(3σ/dx + 1)`, `ny = int(3σ/dy + 1)` around the center
rounded to the nearest grid point, compute the pixel coordinates
`(gx·dx + xmin, gy·dy + ymin)`, and keep exactly the pixels whose coordinates
lie inside the extent (boundary inclusive), retaining indices and
coordinates in parallel.  `int` truncation equals the floor here because the
operand `3σ/d + 1` is nonnegative for the positive σ and spacings of any
constructed spot. -/
def GaussianSpotState.set_xy (s : GaussianSpotState) (x y : ℚ) :
    GaussianSpotState :=
  let nx : ℤ := ⌊3 * s.sigma / s.dx + 1⌋
  let ny : ℤ := ⌊3 * s.sigma / s.dy + 1⌋
  let i : ℤ := pyRound ((x - s.xmin) / s.dx)
  let j : ℤ := pyRound ((y - s.ymin) / s.dy)
  let kept := (subgridPairs i j nx ny).filter (fun gp =>
    decide (s.xmin ≤ (gp.1 : ℚ) * s.dx + s.xmin ∧
      (gp.1 : ℚ) * s.dx + s.xmin ≤ s.xmax ∧
      s.ymin ≤ (gp.2 : ℚ) * s.dy + s.ymin ∧
      (gp.2 : ℚ) * s.dy + s.ymin ≤ s.ymax))
  { s with
    x := x
    y := y
    gridPoints := kept
    xvals := kept.map (fun gp => (gp.1 : ℚ) * s.dx + s.xmin)
    yvals := kept.map (fun gp => (gp.2 : ℚ) * s.dy + s.ymin) }

/-- The `GaussianSpot(shape, extent, sigma)` constructor: the `DeltaSpot`
base computes the pixel spacings `dx = (xmax - xmin)/(shape.x - 1)`,
`dy = (ymax - ymin)/(shape.y - 1)`; then `set_sigma` (defaulting σ to `dx`)
caches `ss2 = 2σ²`, and `set_xy(0, 0)` initializes the sub-grid. -/
def GaussianSpotState.construct (shape : ℕ × ℕ) (xmin xmax ymin ymax : ℚ)
    (sigma : Option ℚ) : GaussianSpotState :=
  let dx := (xmax - xmin) / ((shape.1 : ℚ) - 1)
  let dy := (ymax - ymin) / ((shape.2 : ℚ) - 1)
  let sig := sigma.getD dx
  GaussianSpotState.set_xy
    { shape := shape, xmin := xmin, xmax := xmax, ymin := ymin, ymax := ymax,
      dx := dx, dy := dy, sigma := sig, ss2 := sig * sig * 2,
      x := 0, y := 0, gridPoints := [], xvals := [], yvals := [] } 0 0

/-- `GaussianSpot.makeSpot(cval)`: per surviving pixel,
`(conj(cval)·cval).real · exp(-((X - x)² + (Y - y)²) / ss2)` with `(X, Y)`
the pixel coordinates and `(x, y)` the exact unrounded center. -/
noncomputable def GaussianSpotState.makeSpot (s : GaussianSpotState) (cval : ℂ) :
    List ℝ :=
  List.zipWith
    (fun (X Y : ℚ) => ((starRingEnd ℂ) cval * cval).re *
      Real.exp ((-((X : ℝ) - (s.x : ℝ)) * ((X : ℝ) - (s.x : ℝ))
        - ((Y : ℝ) - (s.y : ℝ)) * ((Y : ℝ) - (s.y : ℝ))) / (s.ss2 : ℝ)))
    s.xvals s.yvals

end Kspace

/-! ### GaussianDensity (`src/cpp/density/GaussianDensity.cc`) -/

namespace Density

/-- Modelled from the spec: the `box::Box` used by `GaussianDensity`
(`Box.h` is not under `src/`): side lengths, per-axis periodic flags and the
2D flag, with `getLx`, `getPeriodic` and `is2D` as field reads. -/
structure GBox where
  Lx : ℝ
  Ly : ℝ
  Lz : ℝ
  periodicX : Bool
  periodicY : Bool
  periodicZ : Bool
  is2D : Bool

/-- C-style `int(x)` truncation toward zero on a real operand. -/
noncomputable def truncR (x : ℝ) : ℤ :=
  if 0 ≤ x then ⌊x⌋ else ⌈x⌉

/-- Modelled from the spec: `Box::wrap` as used on the cell-center
displacement: per-axis minimum-image correction on periodic axes,
pass-through on non-periodic axes. -/
noncomputable def GBox.wrap (b : GBox) (v : ℝ × ℝ × ℝ) : ℝ × ℝ × ℝ :=
  (Freud.Diffraction.wrapAxis b.Lx b.periodicX v.1,
   Freud.Diffraction.wrapAxis b.Ly b.periodicY v.2.1,
   Freud.Diffraction.wrapAxis b.Lz b.periodicZ v.2.2)

/-- The `NeighborQuery` as `GaussianDensity::compute` consumes it: the box
and the stored points. -/
structure NeighborQuery where
  box : GBox
  points : List (ℝ × ℝ × ℝ)

/-- State of a `GaussianDensity` object: constructor parameters, the box of
the last compute, and the output density array together with its prepared
shape. -/
structure GaussianDensity where
  m_box : GBox
  m_width : ℕ × ℕ × ℕ
  m_r_max : ℝ
  m_sigma : ℝ
  m_density_shape : ℕ × ℕ × ℕ
  m_density_array : ℕ × ℕ × ℕ → ℝ

/-- The `GaussianDensity(width, r_max, sigma)` constructor: reject
non-positive `r_max`, else start with a default (empty) box and an empty
density array. -/
noncomputable def GaussianDensity.construct (width : ℕ × ℕ × ℕ)
    (r_max sigma : ℝ) : Except String GaussianDensity :=
  if r_max ≤ 0 then
    Except.error "GaussianDensity requires r_max to be positive."
  else
    Except.ok
      { m_box := { Lx := 0, Ly := 0, Lz := 0, periodicX := true,
                   periodicY := true, periodicZ := true, is2D := false }
        m_width := width, m_r_max := r_max, m_sigma := sigma,
        m_density_shape := (0, 0, 0), m_density_array := fun _ => 0 }

/-- The total Gaussian weight deposited into output cell `target` by one
point `p` in `GaussianDensity::compute`: the triple loop over offset cells
within `±bin_cut` of the point's home cell, with the aperiodic
out-of-range `continue`s, the minimum-image wrap of the displacement to the
cell center, the `r² < r_max²` cutoff, the kernel `A·exp(-r²/(2σ²))`, and
the fold of the raw cell index into range via `(i + width) % width`.  All
loop bookkeeping uses the constructor's `m_width`, exactly as the source
does (only the prepared output shape uses the z-collapsed width). -/
noncomputable def depositContribution (box : GBox) (width : ℕ × ℕ × ℕ)
    (r_max sigma : ℝ) (p : ℝ × ℝ × ℝ) (target : ℕ × ℕ × ℕ) : ℝ :=
  let lx := box.Lx
  let ly := box.Ly
  let lz := box.Lz
  let grid_size_x := lx / (width.1 : ℝ)
  let grid_size_y := ly / (width.2.1 : ℝ)
  let grid_size_z := if box.is2D then 0 else lz / (width.2.2 : ℝ)
  let bin_cut_x : ℤ := truncR (r_max / grid_size_x)
  let bin_cut_y : ℤ := truncR (r_max / grid_size_y)
  let bin_cut_z : ℤ := if box.is2D then 0 else truncR (r_max / grid_size_z)
  let r_max_sq := r_max * r_max
  let sigmasq := sigma * sigma
  let A := Real.sqrt (1 / (2 * Real.pi * sigmasq))
  let bin_x : ℤ := truncR ((p.1 + lx / 2) / grid_size_x)
  let bin_y : ℤ := truncR ((p.2.1 + ly / 2) / grid_size_y)
  let bin_z : ℤ := if box.is2D then 0 else truncR ((p.2.2 + lz / 2) / grid_size_z)
  ∑ k ∈ Finset.Icc (bin_z - bin_cut_z) (bin_z + bin_cut_z),
    ∑ j ∈ Finset.Icc (bin_y - bin_cut_y) (bin_y + bin_cut_y),
      ∑ i ∈ Finset.Icc (bin_x - bin_cut_x) (bin_x + bin_cut_x),
        if ¬box.periodicZ ∧ (k < 0 ∨ (width.2.2 : ℤ) ≤ k) then 0
        else if ¬box.periodicY ∧ (j < 0 ∨ (width.2.1 : ℤ) ≤ j) then 0
        else if ¬box.periodicX ∧ (i < 0 ∨ (width.1 : ℤ) ≤ i) then 0
        else
          let dz := grid_size_z * (k : ℝ) + grid_size_z / 2 - p.2.2 - lz / 2
          let dy := grid_size_y * (j : ℝ) + grid_size_y / 2 - p.2.1 - ly / 2
          let dx := grid_size_x * (i : ℝ) + grid_size_x / 2 - p.1 - lx / 2
          let delta := box.wrap (dx, dy, dz)
          let r_sq := delta.1 * delta.1 + delta.2.1 * delta.2.1
            + delta.2.2 * delta.2.2
          if r_sq < r_max_sq then
            let ni := ((i + (width.1 : ℤ)) % (width.1 : ℤ)).toNat
            let nj := ((j + (width.2.1 : ℤ)) % (width.2.1 : ℤ)).toNat
            let nk := ((k + (width.2.2 : ℤ)) % (width.2.2 : ℤ)).toNat
            if (ni, nj, nk) = target then A * Real.exp (-r_sq / (2 * sigmasq))
            else 0
          else 0

/-- `GaussianDensity::compute(nq)`: store the box, force the z width to 1 for
2D boxes, `prepare` (reallocate and zero) the output array, deposit every
point's truncated kernel into fresh thread-local grids, and reduce them by
summation into the output.  The zero-prepared output plus the summed fresh
thread locals make the result exactly the sum of per-point contributions. -/
noncomputable def GaussianDensity.compute (gd : GaussianDensity)
    (nq : NeighborQuery) : GaussianDensity :=
  let width := if nq.box.is2D then (gd.m_width.1, gd.m_width.2.1, 1) else gd.m_width
  { m_box := nq.box
    m_width := gd.m_width
    m_r_max := gd.m_r_max
    m_sigma := gd.m_sigma
    m_density_shape := width
    m_density_array := fun t =>
      (nq.points.map (fun p =>
        depositContribution nq.box gd.m_width gd.m_r_max gd.m_sigma p t)).sum }

end Density

/-! ### Theorems -/

/-- C1: on the Compute lifecycle guard, reading a computed-only property
fails with the state error "Property not computed. Call compute first."
immediately after construction (flag initialized false), succeeds after one
successful compute-decorated call (which sets the flag true after the wrapped
function returns), and fails again after a reset-decorated call (which clears
the flag). -/
theorem compute_lifecycle_guard {α β ε : Type} (prop : α → β) (a : α)
    (f : α → Except ε α) (g : α → α) (s t t2 : Common.ComputeState α)
    (h : Common.computeDecorated f s = Except.ok t) :
    Common.computedProperty prop (Common.computeInit a)
        = Except.error "Property not computed. Call compute first." ∧
    Common.computedProperty prop t = Except.ok (prop t.data) ∧
    Common.computedProperty prop (Common.resetDecorated g t2)
        = Except.error "Property not computed. Call compute first." := by
  refine ⟨rfl, ?_, rfl⟩
  unfold Common.computeDecorated at h
  cases hf : f s.data with
  | ok d =>
    rw [hf] at h
    cases h
    rfl
  | error e =>
    rw [hf] at h
    cases h

/-- Witness for C1 at a concrete compute object over ℕ. -/
theorem compute_lifecycle_guard_witness :
    Common.computeDecorated (fun n => (Except.ok (n + 1) : Except Unit ℕ))
        (Common.computeInit (0 : ℕ))
      = Except.ok { m_called_compute := true, data := 1 } ∧
    Common.computedProperty (fun n => n)
        ({ m_called_compute := true, data := 1 } : Common.ComputeState ℕ)
      = Except.ok 1 :=
  ⟨rfl,
    (@compute_lifecycle_guard ℕ ℕ Unit (fun n => n) 0
      (fun n => Except.ok (n + 1))
      id (Common.computeInit 0) { m_called_compute := true, data := 1 }
      (Common.computeInit 0) rfl).2.1⟩

/-- C2: the StaticStructureFactorDebye constructor fails with an
invalid-argument error naming the violated condition exactly when `bins = 0`,
`k_max ≤ 0`, `k_min < 0` or `k_max ≤ k_min`; each such violation produces the
corresponding message (following the source's check order), and on failure no
state is produced. -/
theorem debye_constructor_validation (bins : ℕ) (k_max k_min : ℚ) :
    ((∃ msg, Diffraction.debyeConstruct bins k_max k_min = Except.error msg) ↔
      bins = 0 ∨ k_max ≤ 0 ∨ k_min < 0 ∨ k_max ≤ k_min) ∧
    (bins = 0 →
      Diffraction.debyeConstruct bins k_max k_min =
        Except.error "StaticStructureFactorDebye requires a nonzero number of bins.") ∧
    (bins ≠ 0 → k_max ≤ 0 →
      Diffraction.debyeConstruct bins k_max k_min =
        Except.error "StaticStructureFactorDebye requires k_max to be positive.") ∧
    (bins ≠ 0 → 0 < k_max → k_min < 0 →
      Diffraction.debyeConstruct bins k_max k_min =
        Except.error "StaticStructureFactorDebye requires k_min to be non-negative.") ∧
    (bins ≠ 0 → 0 < k_max → 0 ≤ k_min → k_max ≤ k_min →
      Diffraction.debyeConstruct bins k_max k_min =
        Except.error "StaticStructureFactorDebye requires that k_max must be greater than k_min.") := by
  refine ⟨⟨fun hex => ?_, fun hor => ?_⟩, fun h1 => ?_, fun h1 h2 => ?_,
    fun h1 h2 h3 => ?_, fun h1 h2 h3 h4 => ?_⟩
  · by_contra hnone
    push_neg at hnone
    obtain ⟨h1, h2, h3, h4⟩ := hnone
    obtain ⟨msg, hmsg⟩ := hex
    unfold Diffraction.debyeConstruct at hmsg
    rw [if_neg h1, if_neg (not_le.mpr h2), if_neg (not_lt.mpr h3),
      if_neg (not_le.mpr h4)] at hmsg
    cases hmsg
  · unfold Diffraction.debyeConstruct
    split_ifs with h1 h2 h3 h4
    · exact ⟨_, rfl⟩
    · exact ⟨_, rfl⟩
    · exact ⟨_, rfl⟩
    · exact ⟨_, rfl⟩
    · rcases hor with h | h | h | h
      · exact absurd h h1
      · exact absurd h h2
      · exact absurd h h3
      · exact absurd h h4
  · unfold Diffraction.debyeConstruct
    rw [if_pos h1]
  · unfold Diffraction.debyeConstruct
    rw [if_neg h1, if_pos h2]
  · unfold Diffraction.debyeConstruct
    rw [if_neg h1, if_neg (not_le.mpr h2), if_pos h3]
  · unfold Diffraction.debyeConstruct
    rw [if_neg h1, if_neg (not_le.mpr h2), if_neg (not_lt.mpr h3), if_pos h4]

/-- Witness for C2 at the spec's example `(bins, k_max, k_min) = (0, 1, 0)`. -/
theorem debye_constructor_validation_witness :
    (0 : ℕ) = 0 ∧
    (∃ msg, Diffraction.debyeConstruct 0 1 0 = Except.error msg) :=
  ⟨rfl, (debye_constructor_validation 0 1 0).1.mpr (Or.inl rfl)⟩

/-- Any value produced by `fpred32` lies strictly below its argument
(`nextafter` toward zero strictly decreases). -/
theorem fpred32_lt (x : ℚ) : Diffraction.fpred32 x < x := by
  unfold Diffraction.fpred32
  have hstep : (0 : ℚ) < (2 : ℚ) ^ (Diffraction.qlog2 x - 23) := by positivity
  split_ifs with hm hp
  · have h24 : (0 : ℚ) < (2 : ℚ) ^ (Diffraction.qlog2 x - 24) := by positivity
    linarith
  · linarith
  · have hne : (⌊x / (2 : ℚ) ^ (Diffraction.qlog2 x - 23)⌋ : ℚ) ≠
        x / (2 : ℚ) ^ (Diffraction.qlog2 x - 23) := fun hc => hm hc.symm
    have hlt : (⌊x / (2 : ℚ) ^ (Diffraction.qlog2 x - 23)⌋ : ℚ) <
        x / (2 : ℚ) ^ (Diffraction.qlog2 x - 23) :=
      lt_of_le_of_ne (Int.floor_le _) hne
    calc (⌊x / (2 : ℚ) ^ (Diffraction.qlog2 x - 23)⌋ : ℚ)
          * (2 : ℚ) ^ (Diffraction.qlog2 x - 23)
        < (x / (2 : ℚ) ^ (Diffraction.qlog2 x - 23))
          * (2 : ℚ) ^ (Diffraction.qlog2 x - 23) :=
          mul_lt_mul_of_pos_right hlt hstep
      _ = x := div_mul_cancel₀ x (ne_of_gt hstep)

/-- Evaluation of the base-2 logarithm at the concrete argument 5. -/
theorem qlog2_five : Diffraction.qlog2 5 = 2 := by
  have hnum : ((5 : ℚ)).num.toNat = 5 := rfl
  have hden : ((5 : ℚ)).den = 1 := rfl
  have hlog5 : Nat.log 2 5 = 2 :=
    Nat.log_eq_of_pow_le_of_lt_pow (by norm_num) (by norm_num)
  have hlog1 : Nat.log 2 1 = 0 := Nat.log_one_right 2
  unfold Diffraction.qlog2
  rw [hnum, hden, hlog5, hlog1]
  norm_num

/-- Evaluation of the binary32 predecessor at the concrete argument 5:
`nextafter(5, 0) = 5 - 2⁻²¹` exactly. -/
theorem fpred32_five : Diffraction.fpred32 5 = 10485759 / 2097152 := by
  unfold Diffraction.fpred32
  rw [qlog2_five]
  have hpow : ((2 : ℚ)) ^ ((2 : ℤ) - 23) = 1 / 2097152 := by
    norm_num
  have hdiv : (5 : ℚ) / ((2 : ℚ) ^ ((2 : ℤ) - 23)) = 10485760 := by
    rw [hpow]; norm_num
  rw [hdiv, hpow]
  norm_num

/-- C4: `getCellCoord` returns, per axis, `floor(alpha * N) mod N` of the
box-fraction coordinate `alpha = makeunit(p)` against the per-axis cell
count, and consequently the returned coordinate lies in `[0, N)` on every
axis with a nonzero cell count — including when `alpha * N` reaches `N`. -/
theorem getCellCoord_floor_mod (b : Locality.TBox) (g : Locality.CellGrid)
    (p : Diffraction.QVec3) :
    Locality.getCellCoord b g p =
      ((⌊(b.makeunit p).1 * (g.W : ℚ)⌋).toNat % g.W,
       (⌊(b.makeunit p).2.1 * (g.H : ℚ)⌋).toNat % g.H,
       (⌊(b.makeunit p).2.2 * (g.D : ℚ)⌋).toNat % g.D) ∧
    (0 < g.W → (Locality.getCellCoord b g p).1 < g.W) ∧
    (0 < g.H → (Locality.getCellCoord b g p).2.1 < g.H) ∧
    (0 < g.D → (Locality.getCellCoord b g p).2.2 < g.D) :=
  ⟨rfl, fun h => Nat.mod_lt _ h, fun h => Nat.mod_lt _ h, fun h => Nat.mod_lt _ h⟩

/-- Witness for C4: a box of side 2 with a 4-cell grid and the boundary point
`x = 1`, where `alpha.x * N = 4` reaches `N` and the modulo folds the cell
coordinate back to `0`. -/
theorem getCellCoord_floor_mod_witness :
    0 < 4 ∧
    Locality.getCellCoord ⟨2, 2, 2⟩ ⟨4, 4, 4⟩ (1, 0, 0) = (0, 2, 2) ∧
    (Locality.getCellCoord ⟨2, 2, 2⟩ ⟨4, 4, 4⟩ (1, 0, 0)).1 < 4 :=
  ⟨by decide,
    by
      refine Prod.ext ?_ (Prod.ext ?_ ?_) <;>
        norm_num [Locality.getCellCoord, Locality.cellCoordAxis,
          Locality.TBox.makeunit] <;> decide,
    (getCellCoord_floor_mod ⟨2, 2, 2⟩ ⟨4, 4, 4⟩ (1, 0, 0)).2.1 (by decide)⟩

/-- C5: `atEnd` holds exactly when the cursor sits on the terminator
`0xFFFFFFFF`; `nextPy` raises StopIteration exactly when the step it performs
lands on the terminator; and `next` performs the raw linked-list step
unconditionally, with no bounds or end check of its own. -/
theorem iterator_linkcell_end_semantics (it : Locality.IteratorLinkCell) :
    (it.atEnd = true ↔ it.m_cur_idx = 0xffffffff) ∧
    (it.nextPy = Except.error () ↔ (it.next).1.atEnd = true) ∧
    (it.next).1 = { it with m_cur_idx := it.m_cell_list it.m_cur_idx } ∧
    (it.next).2 = it.m_cell_list it.m_cur_idx := by
  refine ⟨?_, ?_, rfl, rfl⟩
  · simp [Locality.IteratorLinkCell.atEnd, Locality.LINK_CELL_TERMINATOR]
  · unfold Locality.IteratorLinkCell.nextPy Locality.IteratorLinkCell.next
    by_cases hend :
        ({ it with m_cur_idx := it.m_cell_list it.m_cur_idx } :
          Locality.IteratorLinkCell).atEnd = true
    · simp [hend]
    · simp [hend]

/-- C3 (amended): `accumulate` derives `r_max = nextafter(0.5·min_side, 0)`
(modelled exactly by `fpred32`, hence strictly below half the smallest box
side, 2D boxes using the smaller in-plane length and 3D boxes the smallest of
all three) and folds `2π / r_max` into the tracked minimum valid k; that
per-frame value exceeds `4π/L` — it is approximately `4π/L`, not half of
`4π/L` as the spec asserts. -/
theorem debye_min_valid_k_update (st : Diffraction.DebyeState)
    (box : Diffraction.DBox) (points qpts : List Diffraction.QVec3)
    (n_total : ℕ) (hL : 0 < Diffraction.minBoxLength box)
    (hr : 0 < Diffraction.fpred32 (1 / 2 * Diffraction.minBoxLength box)) :
    (st.accumulate box points qpts n_total).m_min_valid_k
      = min st.m_min_valid_k
          (((2 * Real.pi /
            ((Diffraction.fpred32 (1 / 2 * Diffraction.minBoxLength box) : ℚ) : ℝ) : ℝ))
            : WithTop ℝ) ∧
    Diffraction.fpred32 (1 / 2 * Diffraction.minBoxLength box)
      < 1 / 2 * Diffraction.minBoxLength box ∧
    4 * Real.pi / ((Diffraction.minBoxLength box : ℚ) : ℝ)
      < 2 * Real.pi /
          ((Diffraction.fpred32 (1 / 2 * Diffraction.minBoxLength box) : ℚ) : ℝ) := by
  refine ⟨rfl, fpred32_lt _, ?_⟩
  have hfq := fpred32_lt (1 / 2 * Diffraction.minBoxLength box)
  have hLR : (0 : ℝ) < ((Diffraction.minBoxLength box : ℚ) : ℝ) := by
    exact_mod_cast hL
  have hrR : (0 : ℝ) <
      ((Diffraction.fpred32 (1 / 2 * Diffraction.minBoxLength box) : ℚ) : ℝ) := by
    exact_mod_cast hr
  have hrltR : ((Diffraction.fpred32 (1 / 2 * Diffraction.minBoxLength box) : ℚ) : ℝ)
      < ((1 / 2 * Diffraction.minBoxLength box : ℚ) : ℝ) := by
    exact_mod_cast hfq
  push_cast at hrltR
  rw [div_lt_div_iff₀ hLR hrR]
  nlinarith [Real.pi_pos, mul_lt_mul_of_pos_left hrltR
    (show (0 : ℝ) < 4 * Real.pi by positivity)]

/-- Witness for C3 at the cubic box of side 10: the minimum side is positive,
`nextafter(5, 0)` is positive, and the per-frame minimum valid k strictly
exceeds `4π/L`. -/
theorem debye_min_valid_k_update_witness :
    0 < Diffraction.minBoxLength ⟨10, 10, 10, false⟩ ∧
    0 < Diffraction.fpred32 (1 / 2 * Diffraction.minBoxLength ⟨10, 10, 10, false⟩) ∧
    4 * Real.pi / ((Diffraction.minBoxLength ⟨10, 10, 10, false⟩ : ℚ) : ℝ)
      < 2 * Real.pi /
          ((Diffraction.fpred32
            (1 / 2 * Diffraction.minBoxLength ⟨10, 10, 10, false⟩) : ℚ) : ℝ) := by
  have harg : (1 / 2 : ℚ) * Diffraction.minBoxLength ⟨10, 10, 10, false⟩ = 5 := by
    norm_num [Diffraction.minBoxLength]
  have hL : (0 : ℚ) < Diffraction.minBoxLength ⟨10, 10, 10, false⟩ := by
    norm_num [Diffraction.minBoxLength]
  have hr : (0 : ℚ) <
      Diffraction.fpred32 (1 / 2 * Diffraction.minBoxLength ⟨10, 10, 10, false⟩) := by
    rw [harg, fpred32_five]
    norm_num
  exact ⟨hL, hr,
    (debye_min_valid_k_update ⟨1, 0, 1, ⊤, fun _ => 0, 0, false, fun _ => 0⟩
      ⟨10, 10, 10, false⟩ [] [] 0 hL hr).2.2⟩

/-- C3 counterexample: on the cubic box of side 10, a freshly constructed
`StaticStructureFactorDebye(10, 5, 1)` tracks, after one `accumulate`, a
minimum valid k different from half of `4π/L` (the tracked value is
`2π/nextafter(5, 0)`, slightly above `4π/L`, which is twice the claimed
value). -/
theorem debye_min_valid_k_counterexample :
    (Diffraction.debyeConstruct 10 5 1).map
        (fun st =>
          (st.accumulate ⟨10, 10, 10, false⟩ [] [] 1).m_min_valid_k)
      ≠ Except.ok (((1 / 2 * (4 * Real.pi / 10) : ℝ)) : WithTop ℝ) := by
  have hctor : Diffraction.debyeConstruct 10 5 1 =
      Except.ok ⟨10, 1, 5, ⊤, fun _ => 0, 0, false, fun _ => 0⟩ := by
    unfold Diffraction.debyeConstruct
    norm_num
  rw [hctor]
  simp only [Except.map]
  intro h
  rw [Except.ok.injEq] at h
  have harg : (1 / 2 : ℚ) * Diffraction.minBoxLength ⟨10, 10, 10, false⟩ = 5 := by
    norm_num [Diffraction.minBoxLength]
  have hacc : (Diffraction.DebyeState.accumulate
        ⟨10, 1, 5, ⊤, fun _ => 0, 0, false, fun _ => 0⟩
        ⟨10, 10, 10, false⟩ [] [] 1).m_min_valid_k
      = ((2 * Real.pi /
          ((Diffraction.fpred32 (1 / 2 * Diffraction.minBoxLength
            ⟨10, 10, 10, false⟩) : ℚ) : ℝ) : ℝ) : WithTop ℝ) :=
    min_eq_right le_top
  rw [hacc, harg, fpred32_five] at h
  rw [WithTop.coe_eq_coe] at h
  have hcast : ((10485759 / 2097152 : ℚ) : ℝ) = 10485759 / 2097152 := by
    push_cast
    ring
  rw [hcast] at h
  have hpi := Real.pi_gt_three
  field_simp at h
  linarith

/-- C6 (code bug): `remove_ptype` on a freshly added particle type does not
purge the type's entries — it raises `ValueError`, because every
`lst.remove(i)` call removes by *value* (the integer index `i` never equals
the stored strings, arrays or `None` entries, and `ptype_param_methods` is
empty since `add_ptype` never appends to it). -/
theorem remove_ptype_value_remove_bug :
    (Kspace.add_ptype Kspace.initTypes "A").bind
        (fun st => Kspace.remove_ptype st "A")
      = Except.error "list.remove(x): x not in list" := rfl

/-- C8: for real-space lattice vectors with nonzero triple product, the
vectors returned by `reciprocalLattice3D` satisfy `gᵢ · aⱼ = 2π` when
`i = j` and `0` when `i ≠ j` (exact arithmetic). -/
theorem reciprocal_lattice_orthogonality (a1 a2 a3 : Kspace.RVec3)
    (h : Kspace.dot3 a1 (Kspace.cross3 a2 a3) ≠ 0) :
    (Kspace.dot3 (Kspace.reciprocalLattice3D a1 a2 a3).1 a1 = 2 * Real.pi ∧
     Kspace.dot3 (Kspace.reciprocalLattice3D a1 a2 a3).1 a2 = 0 ∧
     Kspace.dot3 (Kspace.reciprocalLattice3D a1 a2 a3).1 a3 = 0) ∧
    (Kspace.dot3 (Kspace.reciprocalLattice3D a1 a2 a3).2.1 a1 = 0 ∧
     Kspace.dot3 (Kspace.reciprocalLattice3D a1 a2 a3).2.1 a2 = 2 * Real.pi ∧
     Kspace.dot3 (Kspace.reciprocalLattice3D a1 a2 a3).2.1 a3 = 0) ∧
    (Kspace.dot3 (Kspace.reciprocalLattice3D a1 a2 a3).2.2 a1 = 0 ∧
     Kspace.dot3 (Kspace.reciprocalLattice3D a1 a2 a3).2.2 a2 = 0 ∧
     Kspace.dot3 (Kspace.reciprocalLattice3D a1 a2 a3).2.2 a3 = 2 * Real.pi) := by
  obtain ⟨x1, y1, z1⟩ := a1
  obtain ⟨x2, y2, z2⟩ := a2
  obtain ⟨x3, y3, z3⟩ := a3
  simp only [Kspace.dot3, Kspace.cross3] at h
  have h2 : x2 * (y3 * z1 - z3 * y1) + y2 * (z3 * x1 - x3 * z1)
      + z2 * (x3 * y1 - y3 * x1) ≠ 0 := by
    intro hc
    apply h
    linear_combination hc
  have h3 : x3 * (y1 * z2 - z1 * y2) + y3 * (z1 * x2 - x1 * z2)
      + z3 * (x1 * y2 - y1 * x2) ≠ 0 := by
    intro hc
    apply h
    linear_combination hc
  refine ⟨⟨?_, ?_, ?_⟩, ⟨?_, ?_, ?_⟩, ⟨?_, ?_, ?_⟩⟩ <;>
    simp only [Kspace.reciprocalLattice3D, Kspace.dot3, Kspace.cross3,
      Kspace.smul3] <;>
    field_simp <;>
    ring

/-- Witness for C8 at the standard cubic basis. -/
theorem reciprocal_lattice_orthogonality_witness :
    Kspace.dot3 ((1 : ℝ), (0 : ℝ), (0 : ℝ))
        (Kspace.cross3 ((0 : ℝ), (1 : ℝ), (0 : ℝ)) ((0 : ℝ), (0 : ℝ), (1 : ℝ))) ≠ 0 ∧
    Kspace.dot3
        (Kspace.reciprocalLattice3D ((1 : ℝ), (0 : ℝ), (0 : ℝ))
          ((0 : ℝ), (1 : ℝ), (0 : ℝ)) ((0 : ℝ), (0 : ℝ), (1 : ℝ))).1
        ((1 : ℝ), (0 : ℝ), (0 : ℝ)) = 2 * Real.pi :=
  ⟨by norm_num [Kspace.dot3, Kspace.cross3],
    (reciprocal_lattice_orthogonality ((1 : ℝ), (0 : ℝ), (0 : ℝ))
      ((0 : ℝ), (1 : ℝ), (0 : ℝ)) ((0 : ℝ), (0 : ℝ), (1 : ℝ))
      (by norm_num [Kspace.dot3, Kspace.cross3])).1.1⟩

/-- C9: `GaussianDensity::compute` prepares (reallocates and zeroes) the
output grid before depositing, so the computed density is a function of the
constructor parameters and that call's input alone: a second identical
compute call changes nothing, and two objects with equal constructor
parameters compute equal density arrays regardless of their prior state. -/
theorem gaussian_density_compute_pure (gd gd2 : Density.GaussianDensity)
    (nq : Density.NeighborQuery)
    (hw : gd.m_width = gd2.m_width) (hr : gd.m_r_max = gd2.m_r_max)
    (hs : gd.m_sigma = gd2.m_sigma) :
    (gd.compute nq).compute nq = gd.compute nq ∧
    (gd.compute nq).m_density_array = (gd2.compute nq).m_density_array := by
  constructor
  · rfl
  · simp only [Density.GaussianDensity.compute]
    rw [hw, hr, hs]

/-- Witness for C9: two GaussianDensity objects with the same constructor
parameters but different stale density arrays compute identical densities. -/
theorem gaussian_density_compute_pure_witness :
    ({ m_box := ⟨1, 1, 1, true, true, true, false⟩, m_width := (1, 1, 1),
       m_r_max := 1, m_sigma := 1, m_density_shape := (0, 0, 0),
       m_density_array := fun _ => 0 } : Density.GaussianDensity).m_width
      = ({ m_box := ⟨1, 1, 1, true, true, true, false⟩, m_width := (1, 1, 1),
           m_r_max := 1, m_sigma := 1, m_density_shape := (0, 0, 0),
           m_density_array := fun _ => 5 } : Density.GaussianDensity).m_width ∧
    (({ m_box := ⟨1, 1, 1, true, true, true, false⟩, m_width := (1, 1, 1),
        m_r_max := 1, m_sigma := 1, m_density_shape := (0, 0, 0),
        m_density_array := fun _ => 0 } : Density.GaussianDensity).compute
          ⟨⟨1, 1, 1, true, true, true, false⟩, []⟩).m_density_array
      = (({ m_box := ⟨1, 1, 1, true, true, true, false⟩, m_width := (1, 1, 1),
            m_r_max := 1, m_sigma := 1, m_density_shape := (0, 0, 0),
            m_density_array := fun _ => 5 } : Density.GaussianDensity).compute
              ⟨⟨1, 1, 1, true, true, true, false⟩, []⟩).m_density_array :=
  ⟨rfl,
    (gaussian_density_compute_pure
      { m_box := ⟨1, 1, 1, true, true, true, false⟩, m_width := (1, 1, 1),
        m_r_max := 1, m_sigma := 1, m_density_shape := (0, 0, 0),
        m_density_array := fun _ => 0 }
      { m_box := ⟨1, 1, 1, true, true, true, false⟩, m_width := (1, 1, 1),
        m_r_max := 1, m_sigma := 1, m_density_shape := (0, 0, 0),
        m_density_array := fun _ => 5 }
      ⟨⟨1, 1, 1, true, true, true, false⟩, []⟩ rfl rfl rfl).2⟩

/-- The center sample of each q axis built by the SFactor3DPoints
constructor is exactly zero. -/
theorem linspace_center_zero (L : ℝ) (g : ℕ) :
    Kspace.linspace (-(g : ℝ) * 2 * Real.pi / L) ((g : ℝ) * 2 * Real.pi / L)
      (2 * g + 1) g = 0 := by
  unfold Kspace.linspace
  by_cases hg : 2 * g + 1 ≤ 1
  · rw [if_pos hg]
    have hz : g = 0 := by omega
    subst hz
    norm_num
  · rw [if_neg hg]
    have hgz : g ≠ 0 := by omega
    have hgne : (g : ℝ) ≠ 0 := Nat.cast_ne_zero.mpr hgz
    have hcast : ((2 * g + 1 : ℕ) : ℝ) - 1 = 2 * (g : ℝ) := by
      push_cast
      ring
    rw [hcast]
    field_simp
    ring

/-- C10: after `SFactor3DPoints.compute`, the pre-normalization grid of an
empty point sequence is identically zero, so the C₀ normalization divides by
the magnitude of the center element, which is zero — an unguarded division
by zero — while for every non-empty point sequence the center element has
magnitude exactly 1 after compute. -/
theorem sfactor_center_normalization (box : Kspace.KBox) (g : ℕ)
    (sf : Kspace.SFactor3DPoints)
    (hctor : Kspace.SFactor3DPoints.construct box g = Except.ok sf) :
    (∀ t, sf.rawGrid [] t = 0) ∧
    Complex.abs (sf.rawGrid [] (sf.grid / 2, sf.grid / 2, sf.grid / 2)) = 0 ∧
    (∀ points : List Kspace.RVec3, points ≠ [] →
      Complex.abs ((sf.compute points).s_complex (g, g, g)) = 1) := by
  unfold Kspace.SFactor3DPoints.construct at hctor
  by_cases h2d : box.is2D
  · rw [if_pos h2d] at hctor
    cases hctor
  · rw [if_neg h2d, Except.ok.injEq] at hctor
    subst hctor
    refine ⟨fun t => rfl, ?_, ?_⟩
    · rw [show (Kspace.SFactor3DPoints.rawGrid _ [] _) = 0 from rfl]
      simp
    · intro points hne
      have hlen : points.length ≠ 0 := fun hc => hne (List.length_eq_zero.mp hc)
      have hraw : ∀ t : ℕ × ℕ × ℕ, t = (g, g, g) →
          Kspace.SFactor3DPoints.rawGrid
            { grid := 2 * g + 1
              qx := Kspace.linspace (-(g : ℝ) * 2 * Real.pi / box.Lx)
                ((g : ℝ) * 2 * Real.pi / box.Lx) (2 * g + 1)
              qy := Kspace.linspace (-(g : ℝ) * 2 * Real.pi / box.Ly)
                ((g : ℝ) * 2 * Real.pi / box.Ly) (2 * g + 1)
              qz := Kspace.linspace (-(g : ℝ) * 2 * Real.pi / box.Lz)
                ((g : ℝ) * 2 * Real.pi / box.Lz) (2 * g + 1)
              s_complex := fun _ => 0 } points t
            = (points.length : ℂ) := by
        rintro t rfl
        unfold Kspace.SFactor3DPoints.rawGrid
        simp only [linspace_center_zero, zero_mul, add_zero, zero_add,
          Complex.ofReal_zero, mul_zero, Complex.exp_zero]
        simp [List.map_const', List.sum_replicate]
      have hmid : (2 * g + 1) / 2 = g := by omega
      unfold Kspace.SFactor3DPoints.compute
      simp only [hmid]
      rw [hraw (g, g, g) rfl]
      rw [map_div₀]
      rw [Complex.abs_natCast]
      rw [Complex.abs_ofReal, abs_of_nonneg (Nat.cast_nonneg _)]
      exact div_self (Nat.cast_ne_zero.mpr hlen)

/-- Witness for C10: a 3D box with one point at the origin and g = 1; the
center element of the computed grid has magnitude 1. -/
theorem sfactor_center_normalization_witness :
    (Kspace.SFactor3DPoints.construct ⟨1, 2, 3, false⟩ 1).map
        (fun sf => Complex.abs
          ((sf.compute [((0 : ℝ), (0 : ℝ), (0 : ℝ))]).s_complex (1, 1, 1)))
      = Except.ok 1 := by
  obtain ⟨sf, hsf⟩ :
      ∃ sf, Kspace.SFactor3DPoints.construct ⟨1, 2, 3, false⟩ 1 = Except.ok sf :=
    ⟨_, rfl⟩
  rw [hsf]
  simp only [Except.map]
  rw [(sfactor_center_normalization ⟨1, 2, 3, false⟩ 1 sf hsf).2.2
    [((0 : ℝ), (0 : ℝ), (0 : ℝ))] (by simp)]

/-- Membership in the shifted index grid built by `np.indices` in
`GaussianSpot.set_xy`: exactly the integer pairs within the half-widths of
the rounded center. -/
theorem mem_subgridPairs (i j nx ny gx gy : ℤ) :
    (gx, gy) ∈ Kspace.subgridPairs i j nx ny ↔
      (i - nx ≤ gx ∧ gx ≤ i + nx ∧ j - ny ≤ gy ∧ gy ≤ j + ny) := by
  unfold Kspace.subgridPairs
  simp [List.mem_flatMap, List.mem_map, List.mem_range, Prod.ext_iff]
  constructor
  · rintro ⟨a, ha, c, ⟨b, hb, rfl⟩, h1, h2⟩
    omega
  · rintro ⟨h1, h2, h3, h4⟩
    refine ⟨(gx - (i - nx)).toNat, by omega, ((gy - (j - ny)).toNat : ℤ),
      ⟨(gy - (j - ny)).toNat, by omega, rfl⟩, by omega, by omega⟩

/-- Zipping two maps of the same list combines elementwise. -/
theorem zipWith_map_of_same {α β γ δ : Type} (F : β → γ → δ) (f : α → β)
    (g : α → γ) (l : List α) :
    List.zipWith F (l.map f) (l.map g) = l.map (fun a => F (f a) (g a)) := by
  induction l with
  | nil => rfl
  | cons a t ih => simp [ih]

/-- Characterization of the pixels retained by `GaussianSpot.set_xy`: the
integer pairs within `⌊3σ/spacing⌋ + 1` of the rounded center on each axis
whose coordinates lie inside the extent. -/
theorem gaussianSpot_set_xy_mem (s : Kspace.GaussianSpotState) (x y : ℚ)
    (gx gy : ℤ) :
    (gx, gy) ∈ (s.set_xy x y).gridPoints ↔
      (|gx - Kspace.pyRound ((x - s.xmin) / s.dx)| ≤ ⌊3 * s.sigma / s.dx⌋ + 1 ∧
       |gy - Kspace.pyRound ((y - s.ymin) / s.dy)| ≤ ⌊3 * s.sigma / s.dy⌋ + 1 ∧
       s.xmin ≤ (gx : ℚ) * s.dx + s.xmin ∧ (gx : ℚ) * s.dx + s.xmin ≤ s.xmax ∧
       s.ymin ≤ (gy : ℚ) * s.dy + s.ymin ∧ (gy : ℚ) * s.dy + s.ymin ≤ s.ymax) := by
  unfold Kspace.GaussianSpotState.set_xy
  simp only [List.mem_filter]
  rw [mem_subgridPairs]
  rw [decide_eq_true_eq]
  have hfx : ⌊3 * s.sigma / s.dx + 1⌋ = ⌊3 * s.sigma / s.dx⌋ + 1 :=
    Int.floor_add_one _
  have hfy : ⌊3 * s.sigma / s.dy + 1⌋ = ⌊3 * s.sigma / s.dy⌋ + 1 :=
    Int.floor_add_one _
  rw [hfx, hfy, abs_le, abs_le]
  constructor
  · rintro ⟨⟨h1, h2, h3, h4⟩, h5, h6, h7, h8⟩
    exact ⟨⟨by omega, by omega⟩, ⟨by omega, by omega⟩, h5, h6, h7, h8⟩
  · rintro ⟨⟨h1, h2⟩, ⟨h3, h4⟩, h5, h6, h7, h8⟩
    exact ⟨⟨by omega, by omega, by omega, by omega⟩, h5, h6, h7, h8⟩

/-- C7 (amended): `set_xy(x, y)` builds the square sub-grid of half-width
`⌊3σ/spacing⌋ + 1` pixels per axis (the source computes `int(3σ/spacing + 1)`,
the floor — not the ceiling — of `3σ/spacing`, plus one) around the center
rounded to the nearest grid point, discarding every pixel whose coordinates
fall outside the image extent; `makeSpot(amplitude)` then returns, for each
surviving pixel, `|amplitude|²·exp(−(dx² + dy²)/(2σ²))` with offsets taken
from the exact unrounded center. -/
theorem gaussian_spot_subgrid (s : Kspace.GaussianSpotState) (x y : ℚ)
    (cval : ℂ) (hss : s.ss2 = 2 * s.sigma ^ 2) :
    (∀ gx gy : ℤ,
      (gx, gy) ∈ (s.set_xy x y).gridPoints ↔
        (|gx - Kspace.pyRound ((x - s.xmin) / s.dx)| ≤ ⌊3 * s.sigma / s.dx⌋ + 1 ∧
         |gy - Kspace.pyRound ((y - s.ymin) / s.dy)| ≤ ⌊3 * s.sigma / s.dy⌋ + 1 ∧
         s.xmin ≤ (gx : ℚ) * s.dx + s.xmin ∧ (gx : ℚ) * s.dx + s.xmin ≤ s.xmax ∧
         s.ymin ≤ (gy : ℚ) * s.dy + s.ymin ∧ (gy : ℚ) * s.dy + s.ymin ≤ s.ymax)) ∧
    (s.set_xy x y).makeSpot cval
      = (s.set_xy x y).gridPoints.map (fun gp =>
          ((starRingEnd ℂ) cval * cval).re *
            Real.exp (-((((gp.1 : ℚ) * s.dx + s.xmin - x : ℚ) : ℝ) ^ 2
              + (((gp.2 : ℚ) * s.dy + s.ymin - y : ℚ) : ℝ) ^ 2)
              / (2 * (s.sigma : ℝ) ^ 2))) := by
  refine ⟨fun gx gy => gaussianSpot_set_xy_mem s x y gx gy, ?_⟩
  unfold Kspace.GaussianSpotState.makeSpot
  simp only [Kspace.GaussianSpotState.set_xy]
  rw [zipWith_map_of_same]
  apply List.map_congr_left
  intro gp _
  congr 1
  rw [hss]
  push_cast
  ring

/-- Witness for C7: the 9×9 grid over [0,8]², default σ = spacing = 1, spot
center (4,4), unit amplitude. -/
theorem gaussian_spot_subgrid_witness :
    (Kspace.GaussianSpotState.construct (9, 9) 0 8 0 8 none).ss2
      = 2 * (Kspace.GaussianSpotState.construct (9, 9) 0 8 0 8 none).sigma ^ 2 ∧
    ((Kspace.GaussianSpotState.construct (9, 9) 0 8 0 8 none).set_xy 4 4).makeSpot 1
      = ((Kspace.GaussianSpotState.construct (9, 9) 0 8 0 8 none).set_xy 4 4).gridPoints.map
          (fun gp =>
            ((starRingEnd ℂ) 1 * 1).re *
              Real.exp (-((((gp.1 : ℚ) *
                  (Kspace.GaussianSpotState.construct (9, 9) 0 8 0 8 none).dx +
                  (Kspace.GaussianSpotState.construct (9, 9) 0 8 0 8 none).xmin
                  - 4 : ℚ) : ℝ) ^ 2
                + (((gp.2 : ℚ) *
                  (Kspace.GaussianSpotState.construct (9, 9) 0 8 0 8 none).dy +
                  (Kspace.GaussianSpotState.construct (9, 9) 0 8 0 8 none).ymin
                  - 4 : ℚ) : ℝ) ^ 2)
                / (2 * ((Kspace.GaussianSpotState.construct
                    (9, 9) 0 8 0 8 none).sigma : ℝ) ^ 2))) := by
  have hss : (Kspace.GaussianSpotState.construct (9, 9) 0 8 0 8 none).ss2
      = 2 * (Kspace.GaussianSpotState.construct (9, 9) 0 8 0 8 none).sigma ^ 2 := by
    simp only [Kspace.GaussianSpotState.construct, Kspace.GaussianSpotState.set_xy]
    ring
  exact ⟨hss,
    (gaussian_spot_subgrid
      (Kspace.GaussianSpotState.construct (9, 9) 0 8 0 8 none) 4 4 1 hss).2⟩

/-- C7 counterexample: on the 9×9 grid over [0,8]² (spacing 1) with
σ = 1/2, the claimed half-width is `⌈3σ/spacing⌉ + 1 = 3`, and the pixel
(7, 4) lies within that distance of the rounded center (4, 4) with
coordinates inside the extent — yet `set_xy` does not retain it, because the
source's half-width is `int(3σ/spacing + 1) = ⌊3σ/spacing⌋ + 1 = 2`. -/
theorem gaussian_spot_halfwidth_counterexample :
    (Kspace.GaussianSpotState.construct (9, 9) 0 8 0 8 (some (1 / 2))).sigma = 1 / 2 ∧
    (Kspace.GaussianSpotState.construct (9, 9) 0 8 0 8 (some (1 / 2))).dx = 1 ∧
    (Kspace.GaussianSpotState.construct (9, 9) 0 8 0 8 (some (1 / 2))).xmin = 0 ∧
    Kspace.pyRound (((4 : ℚ) - 0) / 1) = 4 ∧
    |(7 : ℤ) - 4| ≤ ⌈(3 * (1 / 2 : ℚ) / 1)⌉ + 1 ∧
    ((0 : ℚ) ≤ 7 * 1 + 0 ∧ (7 : ℚ) * 1 + 0 ≤ 8 ∧
     (0 : ℚ) ≤ 4 * 1 + 0 ∧ (4 : ℚ) * 1 + 0 ≤ 8) ∧
    ((7 : ℤ), (4 : ℤ)) ∉
      ((Kspace.GaussianSpotState.construct (9, 9) 0 8 0 8 (some (1 / 2))).set_xy
        4 4).gridPoints := by
  have hsig : (Kspace.GaussianSpotState.construct (9, 9) 0 8 0 8 (some (1 / 2))).sigma
      = 1 / 2 := by
    simp [Kspace.GaussianSpotState.construct, Kspace.GaussianSpotState.set_xy]
  have hdx : (Kspace.GaussianSpotState.construct (9, 9) 0 8 0 8 (some (1 / 2))).dx
      = 1 := by
    simp only [Kspace.GaussianSpotState.construct, Kspace.GaussianSpotState.set_xy]
    norm_num
  have hdy : (Kspace.GaussianSpotState.construct (9, 9) 0 8 0 8 (some (1 / 2))).dy
      = 1 := by
    simp only [Kspace.GaussianSpotState.construct, Kspace.GaussianSpotState.set_xy]
    norm_num
  have hxmin : (Kspace.GaussianSpotState.construct (9, 9) 0 8 0 8 (some (1 / 2))).xmin
      = 0 := by
    simp [Kspace.GaussianSpotState.construct, Kspace.GaussianSpotState.set_xy]
  have hymin : (Kspace.GaussianSpotState.construct (9, 9) 0 8 0 8 (some (1 / 2))).ymin
      = 0 := by
    simp [Kspace.GaussianSpotState.construct, Kspace.GaussianSpotState.set_xy]
  have hround : Kspace.pyRound (((4 : ℚ) - 0) / 1) = 4 := by
    unfold Kspace.pyRound
    norm_num
  have hceil : (⌈(3 * (1 / 2 : ℚ) / 1)⌉ : ℤ) = 2 := by
    have e3 : (3 : ℚ) * (1 / 2) / 1 = 3 / 2 := by norm_num
    rw [e3, Int.ceil_eq_iff]
    constructor <;> norm_num
  refine ⟨hsig, hdx, hxmin, hround, ?_, ⟨by norm_num, by norm_num, by norm_num,
    by norm_num⟩, ?_⟩
  · rw [hceil]
    decide
  · intro hmem
    rw [gaussianSpot_set_xy_mem] at hmem
    have h1 := hmem.1
    rw [hsig, hdx, hxmin] at h1
    have e1 : ((4 : ℚ) - 0) / 1 = 4 := by norm_num
    rw [e1] at h1
    have e2 : Kspace.pyRound (4 : ℚ) = 4 := by
      unfold Kspace.pyRound
      norm_num
    rw [e2] at h1
    have e3 : (3 : ℚ) * (1 / 2) / 1 = 3 / 2 := by norm_num
    rw [e3] at h1
    have e4 : ⌊(3 / 2 : ℚ)⌋ = 1 := by norm_num
    rw [e4] at h1
    norm_num at h1

end Freud
